import Mathlib

/-!
Verification development for the `auto-cs-backend` repository.

The subject is the POST handler `generateHandler` in `src/api/generate.js`
(the authoritative, latest variant of the route): license/quota gating over an
in-memory per-day usage counter, deterministic prompt composition from
tone/scenario/customer text, invocation of an external generation provider,
output extraction, and a uniform JSON envelope.

Modelling conventions:
- JavaScript strings are Lean `String`; an optional field of the request body
  is `Option String` (`none` models `undefined`/absent).
- The value fallback `x || d` on strings (falsy `undefined`/`""` picks the
  default) is `jsOr`; on numbers it is `jsOrNat` (falsy `0` picks the default).
- `String.prototype.trim` is modelled by `jsTrim`, stripping ASCII whitespace
  from both ends (the inputs in question contain only ASCII whitespace).
- The `Map` usage counter is a total function `String → Nat`; this conflates a
  missing key with a stored 0, exactly as every read in the source does via
  `usageCounter.get(key) || fallback`.
- The external provider call is an oracle parameter of type
  `Except Unit (Option AIResult)`: `Except.error` models the awaited promise
  throwing (transport/provider fault), `Except.ok none` models a falsy result
  and `Except.ok (some ai)` a structured result.
- The handler result records the HTTP status passed to `res.status`, the JSON
  body, the counter after the request, and the prompt pair submitted to the
  provider (`none` when the provider was not invoked).
-/

set_option maxRecDepth 100000

/-- JavaScript `v || d` for an optional string: absent or empty picks `d`. -/
def jsOr (v : Option String) (d : String) : String :=
  match v with
  | none => d
  | some s => if s = "" then d else s

/-- JavaScript `n || d` for a number read from the counter: `0` picks `d`. -/
def jsOrNat (n d : Nat) : Nat :=
  if n = 0 then d else n

/-- ASCII whitespace, the character class relevant to the trimmed inputs. -/
def isWS (c : Char) : Bool :=
  c = ' ' || c = '\t' || c = '\n' || c = '\r'

/-- Model of `String.prototype.trim`: strip whitespace from both ends. -/
def jsTrim (s : String) : String :=
  ⟨((s.data.dropWhile isWS).reverse.dropWhile isWS).reverse⟩

/-- The request body of `POST /api/generate`, after JSON parsing: the five
fields destructured from `req.body || {}`, each possibly absent. -/
structure Req where
  licenseKey : Option String
  tone : Option String
  clipboardText : Option String
  clientId : Option String
  scenario : Option String
  deriving DecidableEq

/-- The fixed pro credential string compared against `licenseKey`. -/
def proLicense : String := "GOOD_SELLER_2025"

/-- Rejection message of the quota gate. -/
def quotaExceededMsg : String := "무료 사용량(하루 5회)을 초과했습니다."

/-- Message of the empty-generation outcome. -/
def genFailedMsg : String := "응답 생성에 실패했습니다. 잠시 후 다시 시도해 주세요."

/-- Message of the internal-failure fallback. -/
def serverErrorMsg : String := "서버 오류가 발생했습니다. 잠시 후 다시 시도해 주세요."

/-- Success message for free-tier callers. -/
def successMsg : String := "생성 완료"

/-- Success message for pro callers. -/
def proSuccessMsg : String := "생성 완료(프로)"

/-- Source: `const toneValue = tone || 'friendly';`. -/
def toneValueOf (req : Req) : String := jsOr req.tone "friendly"

/-- Source: `const scenarioValue = scenario || 'general';`. -/
def scenarioValueOf (req : Req) : String := jsOr req.scenario "general"

/-- Source: `const text = (clipboardText || '').toString().trim();`. -/
def textOf (req : Req) : String := jsTrim (jsOr req.clipboardText "")

/-- Source: `` const key = `usage:${clientId || 'anon'}:${todayStr()}` ``;
`today` stands for the `YYYY-MM-DD` string produced by `todayStr()`. -/
def usageKey (req : Req) (today : String) : String :=
  "usage:" ++ jsOr req.clientId "anon" ++ ":" ++ today
/-- The system instruction of the handler. The source builds it as a single
constant template literal (no interpolation) and applies `.trim()`; since the
literal only has one leading and one trailing newline, the definition here is
the already-trimmed text, verbatim from the source. -/
def systemPrompt : String :=
  "너는 10년 차 쿠팡/스마트스토어 판매자로, 고객 문의에 답변하는 CS 담당자이다.\n항상 한국어로만 답변한다. 말투는 정중하고 명확하게 유지한다.\n답변 길이는 150~220자 정도로 유지한다.\n이모티콘이나 과한 느낌표/물음표(!!, ???)는 사용하지 않는다.\n고객을 탓하는 표현이나 공격적으로 들릴 수 있는 표현을 쓰지 않는다.\n\"AI\", \"자동 응답\" 같은 표현은 절대 쓰지 않는다.\n\n[소규모 셀러 페르소나/스타일 가이드]\n- 너는 \"작은 온라인 쇼핑몰의 판매자/CS 담당자\"다.\n- 회사 공지문/약관체처럼 딱딱하지 않게, 실제 소규모 셀러가 쓰는 자연스러운 존댓말을 사용한다.\n- 예시 어투:\n  · \"저희 쪽에서 바로 확인해서 처리 도와드리겠습니다.\"\n  · \"조금 번거로우시겠지만 ~ 부탁드리겠습니다.\"\n- 반말/반쯤 반말, 이모티콘(ㅎㅎ, ^^, ㅠㅠ 등)은 사용하지 않는다.\n\n[AI 티 줄이기]\n- \"AI\", \"자동 응답\"이라는 표현은 절대 쓰지 않는다.\n- 과하게 공식적인 표현은 피하고 자연스럽게 바꿔 쓴다.\n  · \"이용해 주셔서 진심으로 감사드립니다.\" → \"이용해 주셔서 감사합니다.\"\n  · \"불편을 드려 대단히 죄송합니다.\" → \"불편을 드려 정말 죄송합니다.\"\n- 고객에게 책임을 돌리는 뉘앙스(예: \"조금만 힘을 덜 주시면 괜찮습니다\", \"사용 방법을 잘못하셔서 발생했습니다\" 등)는 사용하지 않는다.\n\n[문장 패턴 다양화]\n- 매 답변마다 첫 문장의 표현과 문장 길이를 가능하면 조금씩 바꾼다.\n- 예: \"문의 주셔서 감사합니다.\", \"질문 남겨 주셔서 감사합니다.\", \"문의 남겨 주셔서 감사드립니다.\" 등\n\n- scenarioValue가 \x27review\x27일 때는, 리뷰에서 중요한 표현이나 문장을 한 번 이상 그대로 인용해서 답변에 포함해라.\n\n[tone 적용 규칙]\n- tone === \"friendly\":\n  · 표현을 조금 더 부드럽게, 말끝을 완곡하게 사용한다.\n- tone === \"business\":\n  · 최대한 중립적이고 깔끔한 문장을 사용한다.\n- tone === \"principle\":\n  · 판매자의 정책과 기준을 분명하게 설명하되,\n    상대방이 기분 나쁘지 않도록 조심스럽게 표현한다.\n\n[scenario 적용 규칙: scenarioValue ∈ {general | claim | review}]\n- scenarioValue === \"general\":\n  · 배송일, 재고, 상품 정보 등 일반 문의라고 가정한다.\n  · 답변 구조:\n    1) 첫 문장에 가벼운 감사 또는 응대 표현\n    2) 다음 1~2문장에서 핵심 답변을 간단하고 명확하게 설명\n    3) 마지막 문장에서 추가 문의 가능성과 간단한 감사 인사를 덧붙임\n\n- scenarioValue === \"claim\":\n  · 파손, 불량, 환불, 교환, 반품, 취소, 지연, 불편, 불만 등 클레임/불만 상황이라고 가정한다.\n  · 답변 구조(반드시 이 순서):\n    1) 첫 문장: 고객의 불편을 인정하고 사과/공감 표현\n    2) 다음 1~2문장: 판매자가 해줄 수 있는 구체 해결 방법 또는 진행 절차 안내\n    3) 마지막 문장: 추가 문의 시 안내 + 감사 인사\n  · 문제의 원인을 고객의 사용 실수로 돌리는 표현은 피하고, 판매자/제품 측의 확인과 개선 의지를 중심으로 설명한다.\n\n- scenarioValue === \"review\":\n  · 리뷰/후기에 다는 답글이라고 가정한다. clipboardText 내용을 바탕으로\n    긍정/부정/복합(장점+단점 혼재)을 대략 구분해서 대응한다.\n  · 공통 규칙:\n    1) 리뷰에서 중요한 표현이나 문장을 한 번 이상 그대로 인용하거나 바꿔 말해 준다.\n       (예: “허리나 어깨 부담이 줄었다고 말씀해 주셔서 저희도 기쁩니다.”)\n    2) 리뷰어를 탓하거나 방어적으로 들리는 표현은 사용하지 않는다.\n  · 긍정 리뷰로 보이는 경우:\n    1) 첫 문장에서 진심 어린 감사 인사\n    2) 다음 문장에서 리뷰에서 언급한 장점을 짚어 주고 함께 기뻐하는 표현\n    3) 마지막 문장에서 재구매/재방문 유도 또는 브랜드/상호명 언급으로 마무리\n  · 부정 또는 아쉬운 리뷰로 보이는 경우:\n    1) 첫 문장에서 사과/공감 표현\n    2) 다음 문장에서 리뷰에서 언급한 불편 포인트를 다시 짚고,\n       개선 의지 또는 교환/환불/점검 등 구체적인 해결 방법을 간단히 안내\n    3) 마지막 문장에서 감사 인사 및 추가 문의 안내\n  · 사용법 안내가 꼭 필요한 내용(예: “어떻게 쓰는지 모르겠다”, “조립이 헷갈린다” 등)이 아닌 경우에는\n    억지로 사용 팁을 제시하지 말고, 문제 해결과 후속 지원(교환/환불/점검) 중심으로 답변한다."

/-- The user instruction of the handler, verbatim from the source template:
it restates the tone value, the scenario value and the trimmed customer text,
then states the single-answer output rules, and is trimmed. -/
def userPrompt (toneValue scenarioValue text : String) : String :=
  jsTrim ("\n[tone]: " ++ toneValue ++ "\n[scenario]: " ++ scenarioValue
    ++ "\n\n[고객 텍스트]:\n" ++ text
    ++ "\n\n위 [scenario]에 맞는 상황이라고 가정하고, 위의 규칙을 지키면서 하나의 답변만 작성해 줘.\n문단은 1~3문단 이내로 자연스럽게 나눠 써 줘.\n응답에는 한국어 답변 텍스트만 작성해 줘 (메타 정보, 리스트, 헤더 등 금지).\n")

/-- Header line opening the claim-scenario block of `systemPrompt`. -/
def claimHeader : String := "- scenarioValue === \"claim\":"

/-- Claim-scenario structure line 1: apology/empathy first. -/
def claimApologyLine : String := "1) 첫 문장: 고객의 불편을 인정하고 사과/공감 표현"

/-- Claim-scenario structure line 2: concrete remedy or procedure. -/
def claimRemedyLine : String := "2) 다음 1~2문장: 판매자가 해줄 수 있는 구체 해결 방법 또는 진행 절차 안내"

/-- Claim-scenario structure line 3: follow-up invitation and thanks. -/
def claimClosingLine : String := "3) 마지막 문장: 추가 문의 시 안내 + 감사 인사"

/-- Header line opening the review-scenario block of `systemPrompt`. -/
def reviewHeader : String := "- scenarioValue === \"review\":"

/-- Text of `systemPrompt` before the claim-scenario header. -/
def secA : String :=
  "너는 10년 차 쿠팡/스마트스토어 판매자로, 고객 문의에 답변하는 CS 담당자이다.\n항상 한국어로만 답변한다. 말투는 정중하고 명확하게 유지한다.\n답변 길이는 150~220자 정도로 유지한다.\n이모티콘이나 과한 느낌표/물음표(!!, ???)는 사용하지 않는다.\n고객을 탓하는 표현이나 공격적으로 들릴 수 있는 표현을 쓰지 않는다.\n\"AI\", \"자동 응답\" 같은 표현은 절대 쓰지 않는다.\n\n[소규모 셀러 페르소나/스타일 가이드]\n- 너는 \"작은 온라인 쇼핑몰의 판매자/CS 담당자\"다.\n- 회사 공지문/약관체처럼 딱딱하지 않게, 실제 소규모 셀러가 쓰는 자연스러운 존댓말을 사용한다.\n- 예시 어투:\n  · \"저희 쪽에서 바로 확인해서 처리 도와드리겠습니다.\"\n  · \"조금 번거로우시겠지만 ~ 부탁드리겠습니다.\"\n- 반말/반쯤 반말, 이모티콘(ㅎㅎ, ^^, ㅠㅠ 등)은 사용하지 않는다.\n\n[AI 티 줄이기]\n- \"AI\", \"자동 응답\"이라는 표현은 절대 쓰지 않는다.\n- 과하게 공식적인 표현은 피하고 자연스럽게 바꿔 쓴다.\n  · \"이용해 주셔서 진심으로 감사드립니다.\" → \"이용해 주셔서 감사합니다.\"\n  · \"불편을 드려 대단히 죄송합니다.\" → \"불편을 드려 정말 죄송합니다.\"\n- 고객에게 책임을 돌리는 뉘앙스(예: \"조금만 힘을 덜 주시면 괜찮습니다\", \"사용 방법을 잘못하셔서 발생했습니다\" 등)는 사용하지 않는다.\n\n[문장 패턴 다양화]\n- 매 답변마다 첫 문장의 표현과 문장 길이를 가능하면 조금씩 바꾼다.\n- 예: \"문의 주셔서 감사합니다.\", \"질문 남겨 주셔서 감사합니다.\", \"문의 남겨 주셔서 감사드립니다.\" 등\n\n- scenarioValue가 \x27review\x27일 때는, 리뷰에서 중요한 표현이나 문장을 한 번 이상 그대로 인용해서 답변에 포함해라.\n\n[tone 적용 규칙]\n- tone === \"friendly\":\n  · 표현을 조금 더 부드럽게, 말끝을 완곡하게 사용한다.\n- tone === \"business\":\n  · 최대한 중립적이고 깔끔한 문장을 사용한다.\n- tone === \"principle\":\n  · 판매자의 정책과 기준을 분명하게 설명하되,\n    상대방이 기분 나쁘지 않도록 조심스럽게 표현한다.\n\n[scenario 적용 규칙: scenarioValue ∈ {general | claim | review}]\n- scenarioValue === \"general\":\n  · 배송일, 재고, 상품 정보 등 일반 문의라고 가정한다.\n  · 답변 구조:\n    1) 첫 문장에 가벼운 감사 또는 응대 표현\n    2) 다음 1~2문장에서 핵심 답변을 간단하고 명확하게 설명\n    3) 마지막 문장에서 추가 문의 가능성과 간단한 감사 인사를 덧붙임\n\n"

/-- Text of `systemPrompt` between the claim header and the apology line. -/
def secB : String :=
  "\n  · 파손, 불량, 환불, 교환, 반품, 취소, 지연, 불편, 불만 등 클레임/불만 상황이라고 가정한다.\n  · 답변 구조(반드시 이 순서):\n    "

/-- Text of `systemPrompt` between the apology line and the remedy line. -/
def secC : String :=
  "\n    "

/-- Text of `systemPrompt` between the remedy line and the closing line. -/
def secD : String :=
  "\n    "

/-- Text of `systemPrompt` between the closing line and the review header. -/
def secE : String :=
  "\n  · 문제의 원인을 고객의 사용 실수로 돌리는 표현은 피하고, 판매자/제품 측의 확인과 개선 의지를 중심으로 설명한다.\n\n"

/-- Text of `systemPrompt` after the review-scenario header. -/
def secF : String :=
  "\n  · 리뷰/후기에 다는 답글이라고 가정한다. clipboardText 내용을 바탕으로\n    긍정/부정/복합(장점+단점 혼재)을 대략 구분해서 대응한다.\n  · 공통 규칙:\n    1) 리뷰에서 중요한 표현이나 문장을 한 번 이상 그대로 인용하거나 바꿔 말해 준다.\n       (예: “허리나 어깨 부담이 줄었다고 말씀해 주셔서 저희도 기쁩니다.”)\n    2) 리뷰어를 탓하거나 방어적으로 들리는 표현은 사용하지 않는다.\n  · 긍정 리뷰로 보이는 경우:\n    1) 첫 문장에서 진심 어린 감사 인사\n    2) 다음 문장에서 리뷰에서 언급한 장점을 짚어 주고 함께 기뻐하는 표현\n    3) 마지막 문장에서 재구매/재방문 유도 또는 브랜드/상호명 언급으로 마무리\n  · 부정 또는 아쉬운 리뷰로 보이는 경우:\n    1) 첫 문장에서 사과/공감 표현\n    2) 다음 문장에서 리뷰에서 언급한 불편 포인트를 다시 짚고,\n       개선 의지 또는 교환/환불/점검 등 구체적인 해결 방법을 간단히 안내\n    3) 마지막 문장에서 감사 인사 및 추가 문의 안내\n  · 사용법 안내가 꼭 필요한 내용(예: “어떻게 쓰는지 모르겠다”, “조립이 헷갈린다” 등)이 아닌 경우에는\n    억지로 사용 팁을 제시하지 말고, 문제 해결과 후속 지원(교환/환불/점검) 중심으로 답변한다."

/-- One element of a content array in the provider result. `text` is `none`
when the field is absent or not a string (the `typeof c.text === 'string'`
guard in the source fails). -/
structure ContentPart where
  type : String
  text : Option String
  deriving DecidableEq

/-- One output segment of the provider result. `content` is `none` when the
field is absent or falsy (the `if (!item?.content) continue` guard). -/
structure OutputItem where
  content : Option (List ContentPart)
  deriving DecidableEq

/-- The provider result object. `output` is `none` when the field is absent or
not an array (the `Array.isArray(ai.output)` guard fails). -/
structure AIResult where
  output : Option (List OutputItem)
  deriving DecidableEq

/-- Outcome of the awaited provider call: `Except.error` models the promise
rejecting with a thrown fault, `Except.ok none` a falsy result value, and
`Except.ok (some ai)` a structured result. -/
abbrev ProviderOutcome := Except Unit (Option AIResult)

/-- Inner loop of the output parsing step: fold the content array of one
segment over the accumulator, appending `c.text` exactly when
`c.type === 'output_text'` and the text is a string. -/
def collectContent (acc : String) (cs : List ContentPart) : String :=
  cs.foldl (fun a c =>
    if c.type = "output_text" then
      match c.text with
      | some t => a ++ t
      | none => a
    else a) acc

/-- The output parsing step of the handler (before the final trim): start from
the empty string, skip a falsy or non-array `output`, skip segments with falsy
`content`, and accumulate the generated-text parts in order. -/
def extractOutputText (ai : Option AIResult) : String :=
  match ai with
  | none => ""
  | some a =>
    match a.output with
    | none => ""
    | some items =>
      items.foldl (fun acc item =>
        match item.content with
        | none => acc
        | some cs => collectContent acc cs) ""

/-- The JSON body of every response of the handler. -/
structure GenResponse where
  ok : Bool
  reply : String
  todayUsage : Nat
  todayLimit : Nat
  isPro : Bool
  message : String
  deriving DecidableEq

/-- Everything observable about one handler invocation: the HTTP status given
to `res.status`, the JSON body, the usage counter after the request, and the
prompt pair submitted to the provider (`none` when it was not invoked). -/
structure HandlerResult where
  status : Nat
  response : GenResponse
  counter : String → Nat
  providerCall : Option (String × String)

/-- Shallow embedding of `generateHandler` from `src/api/generate.js`.
`counter` is the usage counter at entry, `today` the current `YYYY-MM-DD`
string, and `provider` the oracle outcome of the external call. The `catch`
block of the source maps a thrown provider fault to the fixed fallback body;
the counter mutation performed before the call is not rolled back by it. -/
def generateHandler (req : Req) (counter : String → Nat) (today : String)
    (provider : ProviderOutcome) : HandlerResult :=
  let toneValue := toneValueOf req
  let scenarioValue := scenarioValueOf req
  let text := textOf req
  let isPro : Bool := decide (req.licenseKey = some proLicense)
  let limit : Nat := if isPro then 999 else 5
  let key := usageKey req today
  let used := counter key
  if isPro = false ∧ limit ≤ used then
    { status := 200
      response :=
        { ok := false, reply := "", todayUsage := used, todayLimit := limit
          isPro := isPro, message := quotaExceededMsg }
      counter := counter
      providerCall := none }
  else
    let counter' := fun k => if k = key then used + 1 else counter k
    let call := (systemPrompt, userPrompt toneValue scenarioValue text)
    match provider with
    | Except.error _ =>
      { status := 200
        response :=
          { ok := false, reply := "", todayUsage := 0, todayLimit := 5
            isPro := false, message := serverErrorMsg }
        counter := counter'
        providerCall := some call }
    | Except.ok ai =>
      let replyText := jsTrim (extractOutputText ai)
      if replyText = "" then
        { status := 200
          response :=
            { ok := false, reply := ""
              todayUsage := jsOrNat (counter' key) (used + 1)
              todayLimit := limit, isPro := isPro, message := genFailedMsg }
          counter := counter'
          providerCall := some call }
      else
        { status := 200
          response :=
            { ok := true, reply := replyText
              todayUsage := jsOrNat (counter' key) (used + 1)
              todayLimit := limit, isPro := isPro
              message := if isPro then proSuccessMsg else successMsg }
          counter := counter'
          providerCall := some call }

/-- Usage counter after `n` requests of a same-day request sequence: request
`i` is `reqs i`, with provider outcome `oracle i`, starting from counter `c0`.
Same `today` throughout models a sequence within one calendar day. -/
def counterAfter (reqs : Nat → Req) (today : String)
    (oracle : Nat → ProviderOutcome) (c0 : String → Nat) : Nat → String → Nat
  | 0 => c0
  | n + 1 =>
    (generateHandler (reqs n) (counterAfter reqs today oracle c0 n) today
      (oracle n)).counter

/-- Result of request `n` (0-based) of a same-day request sequence. -/
def nthRequest (reqs : Nat → Req) (today : String)
    (oracle : Nat → ProviderOutcome) (c0 : String → Nat) (n : Nat) :
    HandlerResult :=
  generateHandler (reqs n) (counterAfter reqs today oracle c0 n) today
    (oracle n)

/-- Modelled from the spec: the selector of the reference extraction — a part
contributes exactly when its kind marks it as generated text, that is, type
`output_text` with a string text field. -/
def pickText (c : ContentPart) : Option String :=
  if c.type = "output_text" then c.text else none

/-- Modelled from the spec: all output segments of a provider result, with a
result of zero segments (absent or non-array output, or falsy result) giving
the empty segment list. -/
def segmentsOf (ai : Option AIResult) : List OutputItem :=
  match ai with
  | none => []
  | some a => a.output.getD []

/-- Modelled from the spec: the reference extraction — the in-order
concatenation, across all output segments and all their content parts, of
exactly the text of the generated-text parts, then trimmed. -/
def specExtract (ai : Option AIResult) : String :=
  jsTrim (String.join
    ((((segmentsOf ai).map fun item => item.content.getD []).flatten).filterMap
      pickText))

/-- Number of occurrences of `pat` in a character list, at distinct start
positions, accumulated tail-recursively. -/
def countOccurAux (pat : List Char) : List Char → Nat → Nat
  | [], acc => acc
  | c :: rest, acc =>
    match List.isPrefixOf pat (c :: rest) with
    | true => countOccurAux pat rest (acc + 1)
    | false => countOccurAux pat rest acc

/-- Number of occurrences of the pattern `pat` in the string `s`. -/
def occurrences (s pat : String) : Nat :=
  countOccurAux pat.data s.data 0

/-- Sample provider result with three segments and mixed part kinds: one
segment with a generated-text part and a reasoning part, one segment with
missing content, one segment with a text part lacking a string text field
followed by a generated-text part. -/
def sampleAI : Option AIResult :=
  some ⟨some [⟨some [⟨"output_text", some "안녕"⟩, ⟨"reasoning", some "건너뜀"⟩]⟩, ⟨none⟩, ⟨some [⟨"output_text", none⟩, ⟨"output_text", some "하세요"⟩]⟩]⟩

/-- Sample provider result with an output array of zero segments. -/
def zeroSegmentsAI : Option AIResult :=
  some ⟨some []⟩

theorem strFoldl_append (l : List String) (x : String) :
    l.foldl (· ++ ·) x = x ++ l.foldl (· ++ ·) "" := by
  induction l generalizing x with
  | nil => simp
  | cons a l ih =>
    simp only [List.foldl_cons]
    rw [ih (x ++ a), ih ("" ++ a), String.empty_append, String.append_assoc]

theorem strJoin_cons (a : String) (l : List String) :
    String.join (a :: l) = a ++ String.join l := by
  show (a :: l).foldl (· ++ ·) "" = a ++ l.foldl (· ++ ·) ""
  simp only [List.foldl_cons]
  rw [strFoldl_append, String.empty_append]

theorem strJoin_append (l₁ l₂ : List String) :
    String.join (l₁ ++ l₂) = String.join l₁ ++ String.join l₂ := by
  induction l₁ with
  | nil => simp [String.join]
  | cons a l ih =>
    rw [List.cons_append, strJoin_cons, strJoin_cons, ih, String.append_assoc]


theorem collectContent_eq (cs : List ContentPart) (acc : String) :
    collectContent acc cs = acc ++ String.join (cs.filterMap pickText) := by
  induction cs generalizing acc with
  | nil => simp [collectContent, String.join]
  | cons c cs ih =>
    show collectContent
        (if c.type = "output_text" then
          match c.text with
          | some t => acc ++ t
          | none => acc
        else acc) cs = acc ++ String.join ((c :: cs).filterMap pickText)
    by_cases h : c.type = "output_text"
    · cases ht : c.text with
      | none =>
        have hp : pickText c = none := by simp [pickText, h, ht]
        simp only [List.filterMap_cons, hp, h, ht, if_true]
        exact ih acc
      | some t =>
        have hp : pickText c = some t := by simp [pickText, h, ht]
        simp only [List.filterMap_cons, hp, h, ht, if_true]
        rw [strJoin_cons, ih, String.append_assoc]
    · have hp : pickText c = none := by simp [pickText, h]
      simp only [List.filterMap_cons, hp, if_neg h]
      exact ih acc

theorem itemsFold_eq (items : List OutputItem) (acc : String) :
    items.foldl (fun acc item =>
        match item.content with
        | none => acc
        | some cs => collectContent acc cs) acc =
      acc ++ String.join
        (((items.map fun item => item.content.getD []).flatten).filterMap
          pickText) := by
  induction items generalizing acc with
  | nil => simp [String.join]
  | cons it items ih =>
    simp only [List.foldl_cons, List.map_cons, List.flatten_cons,
      List.filterMap_append]
    cases hc : it.content with
    | none =>
      simp only [hc, Option.getD_none, List.filterMap_nil, List.nil_append]
      exact ih acc
    | some cs =>
      simp only [hc, Option.getD_some]
      rw [collectContent_eq, ih, strJoin_append, String.append_assoc]

theorem extractOutputText_eq (ai : Option AIResult) :
    extractOutputText ai = String.join
      (List.filterMap pickText
        (((segmentsOf ai).map fun item => item.content.getD []).flatten)) := by
  cases ai with
  | none => simp [extractOutputText, segmentsOf, String.join]
  | some a =>
    cases ho : a.output with
    | none => simp [extractOutputText, segmentsOf, ho, String.join]
    | some items =>
      simp only [extractOutputText, segmentsOf, ho, Option.getD_some]
      rw [itemsFold_eq, String.empty_append]

theorem admit_not_reject (req : Req) (c : String → Nat) (today : String)
    (h : req.licenseKey = some proLicense ∨ c (usageKey req today) < 5) :
    ¬ (decide (req.licenseKey = some proLicense) = false ∧
       (if decide (req.licenseKey = some proLicense) = true then (999 : Nat)
        else 5) ≤ c (usageKey req today)) := by
  rintro ⟨hb, hle⟩
  rcases h with h | h
  · simp [decide_eq_true h] at hb
  · rw [hb] at hle
    simp at hle
    omega

theorem handler_rejected (req : Req) (c : String → Nat) (today : String)
    (prov : ProviderOutcome) (hp : req.licenseKey ≠ some proLicense)
    (hu : 5 ≤ c (usageKey req today)) :
    generateHandler req c today prov =
      { status := 200
        response :=
          { ok := false, reply := "", todayUsage := c (usageKey req today)
            todayLimit := 5, isPro := false, message := quotaExceededMsg }
        counter := c
        providerCall := none } := by
  have hb : decide (req.licenseKey = some proLicense) = false :=
    decide_eq_false hp
  simp [generateHandler, hb, hu]

theorem handler_error (req : Req) (c : String → Nat) (today : String)
    (h : req.licenseKey = some proLicense ∨ c (usageKey req today) < 5) :
    generateHandler req c today (Except.error ()) =
      { status := 200
        response :=
          { ok := false, reply := "", todayUsage := 0, todayLimit := 5
            isPro := false, message := serverErrorMsg }
        counter := fun k =>
          if k = usageKey req today then c (usageKey req today) + 1 else c k
        providerCall :=
          some (systemPrompt,
            userPrompt (toneValueOf req) (scenarioValueOf req) (textOf req)) } := by
  simp only [generateHandler]
  rw [if_neg (admit_not_reject req c today h)]

theorem handler_ok_empty (req : Req) (c : String → Nat) (today : String)
    (ai : Option AIResult)
    (h : req.licenseKey = some proLicense ∨ c (usageKey req today) < 5)
    (hempty : jsTrim (extractOutputText ai) = "") :
    generateHandler req c today (Except.ok ai) =
      { status := 200
        response :=
          { ok := false, reply := ""
            todayUsage := c (usageKey req today) + 1
            todayLimit := if req.licenseKey = some proLicense then 999 else 5
            isPro := decide (req.licenseKey = some proLicense)
            message := genFailedMsg }
        counter := fun k =>
          if k = usageKey req today then c (usageKey req today) + 1 else c k
        providerCall :=
          some (systemPrompt,
            userPrompt (toneValueOf req) (scenarioValueOf req) (textOf req)) } := by
  simp only [generateHandler]
  rw [if_neg (admit_not_reject req c today h)]
  simp [jsOrNat, hempty]

theorem handler_ok_success (req : Req) (c : String → Nat) (today : String)
    (ai : Option AIResult)
    (h : req.licenseKey = some proLicense ∨ c (usageKey req today) < 5)
    (hne : jsTrim (extractOutputText ai) ≠ "") :
    generateHandler req c today (Except.ok ai) =
      { status := 200
        response :=
          { ok := true, reply := jsTrim (extractOutputText ai)
            todayUsage := c (usageKey req today) + 1
            todayLimit := if req.licenseKey = some proLicense then 999 else 5
            isPro := decide (req.licenseKey = some proLicense)
            message := if req.licenseKey = some proLicense then proSuccessMsg
              else successMsg }
        counter := fun k =>
          if k = usageKey req today then c (usageKey req today) + 1 else c k
        providerCall :=
          some (systemPrompt,
            userPrompt (toneValueOf req) (scenarioValueOf req) (textOf req)) } := by
  simp only [generateHandler]
  rw [if_neg (admit_not_reject req c today h)]
  simp [jsOrNat, hne]

theorem handler_admitted (req : Req) (c : String → Nat) (today : String)
    (prov : ProviderOutcome)
    (h : req.licenseKey = some proLicense ∨ c (usageKey req today) < 5) :
    (generateHandler req c today prov).counter =
      (fun k =>
        if k = usageKey req today then c (usageKey req today) + 1 else c k) ∧
    (generateHandler req c today prov).providerCall =
      some (systemPrompt,
        userPrompt (toneValueOf req) (scenarioValueOf req) (textOf req)) := by
  cases prov with
  | error e =>
    cases e
    rw [handler_error req c today h]
    exact ⟨rfl, rfl⟩
  | ok ai =>
    by_cases he : jsTrim (extractOutputText ai) = ""
    · rw [handler_ok_empty req c today ai h he]
      exact ⟨rfl, rfl⟩
    · rw [handler_ok_success req c today ai h he]
      exact ⟨rfl, rfl⟩

theorem handler_providerCall_shape (req : Req) (c : String → Nat)
    (today : String) (prov : ProviderOutcome) (pr : String × String)
    (hpc : (generateHandler req c today prov).providerCall = some pr) :
    pr = (systemPrompt,
      userPrompt (toneValueOf req) (scenarioValueOf req) (textOf req)) := by
  by_cases hadm : req.licenseKey = some proLicense ∨ c (usageKey req today) < 5
  · rw [(handler_admitted req c today prov hadm).2] at hpc
    exact (Option.some_inj.mp hpc).symm
  · push_neg at hadm
    rw [handler_rejected req c today prov hadm.1 (by omega)] at hpc
    simp at hpc

theorem counterAfter_key (reqs : Nat → Req) (today : String)
    (oracle : Nat → ProviderOutcome) (c0 : String → Nat)
    (hfree : ∀ n, (reqs n).licenseKey ≠ some proLicense)
    (hkey : ∀ n, usageKey (reqs n) today = usageKey (reqs 0) today)
    (h0 : c0 (usageKey (reqs 0) today) = 0) :
    ∀ n, counterAfter reqs today oracle c0 n (usageKey (reqs 0) today) =
      min n 5 := by
  intro n
  induction n with
  | zero => simpa using h0
  | succ n ih =>
    show (generateHandler (reqs n) (counterAfter reqs today oracle c0 n) today
      (oracle n)).counter (usageKey (reqs 0) today) = min (n + 1) 5
    by_cases hn : n < 5
    · have hadm : (reqs n).licenseKey = some proLicense ∨
          counterAfter reqs today oracle c0 n (usageKey (reqs n) today) < 5 := by
        right
        rw [hkey n, ih]
        omega
      simp only [(handler_admitted (reqs n)
        (counterAfter reqs today oracle c0 n) today (oracle n) hadm).1]
      rw [hkey n]
      rw [if_pos rfl, ih]
      omega
    · have hge : 5 ≤ counterAfter reqs today oracle c0 n
          (usageKey (reqs n) today) := by
        rw [hkey n, ih]
        omega
      simp only [handler_rejected (reqs n)
        (counterAfter reqs today oracle c0 n) today (oracle n) (hfree n) hge]
      rw [ih]
      omega

/-- C1: for every clientId, within one calendar day, a free-tier request
sequence starting from a fresh counter is admitted (the provider is invoked)
on exactly its first 5 requests, and every request from the 6th on is
rejected with the quota envelope whose `todayUsage` is exactly 5. -/
theorem freeTier_admits_five_then_rejects
    (reqs : Nat → Req) (today : String) (oracle : Nat → ProviderOutcome)
    (c0 : String → Nat)
    (hfree : ∀ n, (reqs n).licenseKey ≠ some proLicense)
    (hkey : ∀ n, usageKey (reqs n) today = usageKey (reqs 0) today)
    (h0 : c0 (usageKey (reqs 0) today) = 0) (n : Nat) :
    (n < 5 → (nthRequest reqs today oracle c0 n).providerCall ≠ none) ∧
    (5 ≤ n →
      (nthRequest reqs today oracle c0 n).response =
        { ok := false, reply := "", todayUsage := 5, todayLimit := 5
          isPro := false, message := quotaExceededMsg } ∧
      (nthRequest reqs today oracle c0 n).providerCall = none) := by
  constructor
  · intro hn
    have hadm : (reqs n).licenseKey = some proLicense ∨
        counterAfter reqs today oracle c0 n (usageKey (reqs n) today) < 5 := by
      right
      rw [hkey n, counterAfter_key reqs today oracle c0 hfree hkey h0 n]
      omega
    simp only [nthRequest, (handler_admitted (reqs n)
      (counterAfter reqs today oracle c0 n) today (oracle n) hadm).2]
    simp
  · intro hn
    have h5 : counterAfter reqs today oracle c0 n (usageKey (reqs n) today)
        = 5 := by
      rw [hkey n, counterAfter_key reqs today oracle c0 hfree hkey h0 n]
      omega
    simp only [nthRequest, handler_rejected (reqs n)
      (counterAfter reqs today oracle c0 n) today (oracle n) (hfree n)
      (le_of_eq h5.symm)]
    simp [h5]

/-- Witness for C1: a concrete free-tier client calling 8 times on a fresh
day; the 8th call (index 7) is rejected with `todayUsage = 5`. -/
theorem freeTier_admits_five_then_rejects_witness :
    (nthRequest
        (fun _ =>
          { licenseKey := none, tone := none, clipboardText := none
            clientId := some "cs_test_1", scenario := none })
        "2025-06-01" (fun _ => Except.ok none) (fun _ => 0) 7).response =
      { ok := false, reply := "", todayUsage := 5, todayLimit := 5
        isPro := false, message := quotaExceededMsg } :=
  ((freeTier_admits_five_then_rejects
    (fun _ =>
      { licenseKey := none, tone := none, clipboardText := none
        clientId := some "cs_test_1", scenario := none })
    "2025-06-01" (fun _ => Except.ok none) (fun _ => 0)
    (fun _ h => Option.noConfusion h) (fun _ => rfl) rfl 7).2 (by omega)).1

/-- C2: when the quota gate rejects (non-pro and `used >= dailyLimit`), the
handler returns status 200 with `ok = false`, empty reply, `todayUsage` equal
to the stored count that was read, `todayLimit` and `isPro` from the decision
and the fixed upgrade message; the counter is unchanged and the generation
provider is never invoked. -/
theorem quotaRejection_envelope (req : Req) (c : String → Nat) (today : String)
    (prov : ProviderOutcome) (hp : req.licenseKey ≠ some proLicense)
    (hu : 5 ≤ c (usageKey req today)) :
    generateHandler req c today prov =
      { status := 200
        response :=
          { ok := false, reply := "", todayUsage := c (usageKey req today)
            todayLimit := 5, isPro := false, message := quotaExceededMsg }
        counter := c
        providerCall := none } :=
  handler_rejected req c today prov hp hu

/-- Witness for C2: a concrete non-pro request with the stored count already
at 5 is rejected, the counter is returned unchanged and no provider call is
recorded. -/
theorem quotaRejection_envelope_witness :
    generateHandler
        { licenseKey := some "WRONG_KEY", tone := none, clipboardText := none
          clientId := some "cs_test_1", scenario := none }
        (fun _ => 5) "2025-06-01" (Except.ok none) =
      { status := 200
        response :=
          { ok := false, reply := "", todayUsage := 5, todayLimit := 5
            isPro := false, message := quotaExceededMsg }
        counter := fun _ => 5
        providerCall := none } :=
  quotaRejection_envelope
    { licenseKey := some "WRONG_KEY", tone := none, clipboardText := none
      clientId := some "cs_test_1", scenario := none }
    (fun _ => 5) "2025-06-01" (Except.ok none) (by decide) (by decide)

/-- C3: every admitted request (pro, or free with `used < dailyLimit`)
increments exactly its own usage key by 1, leaves every other key unchanged,
and the provider is invoked; this holds for every provider outcome, so the
increment persists on the empty-output and fault outcomes as well as on
success. -/
theorem admitted_increments_exactly_one_key
    (req : Req) (c : String → Nat) (today : String) (prov : ProviderOutcome)
    (h : req.licenseKey = some proLicense ∨ c (usageKey req today) < 5) :
    (generateHandler req c today prov).counter (usageKey req today) =
      c (usageKey req today) + 1 ∧
    (∀ k, k ≠ usageKey req today →
      (generateHandler req c today prov).counter k = c k) ∧
    (generateHandler req c today prov).providerCall ≠ none := by
  obtain ⟨hc, hpc⟩ := handler_admitted req c today prov h
  refine ⟨?_, ?_, ?_⟩
  · rw [hc]
    simp
  · intro k hk
    rw [hc]
    simp [hk]
  · rw [hpc]
    simp

/-- Witness for C3: a concrete free request under quota, with a faulting
provider: its own key goes from 0 to 1, another key stays 0, and the provider
was invoked. -/
theorem admitted_increments_exactly_one_key_witness :
    (generateHandler
        { licenseKey := none, tone := none, clipboardText := none
          clientId := none, scenario := none }
        (fun _ => 0) "2025-06-01" (Except.error ())).counter
      (usageKey
        { licenseKey := none, tone := none, clipboardText := none
          clientId := none, scenario := none } "2025-06-01") = 1 ∧
    (generateHandler
        { licenseKey := none, tone := none, clipboardText := none
          clientId := none, scenario := none }
        (fun _ => 0) "2025-06-01" (Except.error ())).counter "other-key" = 0 ∧
    (generateHandler
        { licenseKey := none, tone := none, clipboardText := none
          clientId := none, scenario := none }
        (fun _ => 0) "2025-06-01" (Except.error ())).providerCall ≠ none :=
  ⟨(admitted_increments_exactly_one_key _ _ _ _ (Or.inr (by decide))).1,
   (admitted_increments_exactly_one_key _ _ _ _
     (Or.inr (by decide))).2.1 "other-key" (by decide),
   (admitted_increments_exactly_one_key _ _ _ _ (Or.inr (by decide))).2.2⟩

/-- C4 counterexample: a request presenting the exact pro credential whose
provider call faults receives the internal-failure fallback, whose body
carries `isPro = false` and `todayLimit = 5`, contradicting the claim that
every response to a pro request carries `isPro = true` and
`todayLimit = 999`. -/
theorem proStatus_counterexample :
    (generateHandler
        { licenseKey := some proLicense, tone := none, clipboardText := none
          clientId := none, scenario := none }
        (fun _ => 0) "2025-06-01" (Except.error ())).response.isPro = false ∧
    (generateHandler
        { licenseKey := some proLicense, tone := none, clipboardText := none
          clientId := none, scenario := none }
        (fun _ => 0) "2025-06-01" (Except.error ())).response.todayLimit
      = 5 := by
  rw [handler_error _ _ _ (Or.inl rfl)]
  exact ⟨rfl, rfl⟩

/-- C4 (amended): for every request presenting the exact pro credential, the
quota-rejection branch is never taken (the provider is always invoked and the
quota message is never returned) for any counter state; and on every outcome
in which the provider call returns (does not fault), the response carries
`isPro = true` and `todayLimit = 999`. On a provider fault the fixed fallback
(`isPro = false`, `todayLimit = 5`) is returned instead. -/
theorem proNeverRejected (req : Req) (c : String → Nat) (today : String)
    (prov : ProviderOutcome) (h : req.licenseKey = some proLicense) :
    (generateHandler req c today prov).providerCall ≠ none ∧
    (generateHandler req c today prov).response.message ≠ quotaExceededMsg ∧
    (∀ ai, prov = Except.ok ai →
      (generateHandler req c today prov).response.isPro = true ∧
      (generateHandler req c today prov).response.todayLimit = 999) := by
  have hadm : req.licenseKey = some proLicense ∨
      c (usageKey req today) < 5 := Or.inl h
  refine ⟨?_, ?_, ?_⟩
  · rw [(handler_admitted req c today prov hadm).2]
    simp
  · cases prov with
    | error e =>
      cases e
      rw [handler_error req c today hadm]
      show serverErrorMsg ≠ quotaExceededMsg
      decide
    | ok ai =>
      by_cases he : jsTrim (extractOutputText ai) = ""
      · rw [handler_ok_empty req c today ai hadm he]
        show genFailedMsg ≠ quotaExceededMsg
        decide
      · rw [handler_ok_success req c today ai hadm he]
        show (if req.licenseKey = some proLicense then proSuccessMsg
          else successMsg) ≠ quotaExceededMsg
        rw [if_pos h]
        decide
  · intro ai hai
    subst hai
    by_cases he : jsTrim (extractOutputText ai) = ""
    · rw [handler_ok_empty req c today ai hadm he]
      exact ⟨by simp [h], by rw [if_pos h]⟩
    · rw [handler_ok_success req c today ai hadm he]
      exact ⟨by simp [h], by rw [if_pos h]⟩

/-- Witness for C4 (amended): a concrete pro request with a non-faulting
provider outcome: the provider is invoked and the response carries
`isPro = true`, `todayLimit = 999`. -/
theorem proNeverRejected_witness :
    (generateHandler
        { licenseKey := some proLicense, tone := none, clipboardText := none
          clientId := none, scenario := none }
        (fun _ => 1000000) "2025-06-01" (Except.ok none)).providerCall ≠
      none ∧
    (generateHandler
        { licenseKey := some proLicense, tone := none, clipboardText := none
          clientId := none, scenario := none }
        (fun _ => 1000000) "2025-06-01" (Except.ok none)).response.isPro
      = true ∧
    (generateHandler
        { licenseKey := some proLicense, tone := none, clipboardText := none
          clientId := none, scenario := none }
        (fun _ => 1000000) "2025-06-01" (Except.ok none)).response.todayLimit
      = 999 :=
  ⟨(proNeverRejected _ _ _ _ rfl).1,
   ((proNeverRejected _ _ _ _ rfl).2.2 none rfl).1,
   ((proNeverRejected _ _ _ _ rfl).2.2 none rfl).2⟩

/-- C5 counterexample: a request with the unrecognized tone value `casual`
is not treated as `friendly` — the tone value used by the pipeline is
`casual` itself, which is outside `{friendly, business, principle}`. -/
theorem toneUnrecognized_counterexample :
    toneValueOf
        { licenseKey := none, tone := some "casual", clipboardText := none
          clientId := none, scenario := none } ∉
      (["friendly", "business", "principle"] : List String) := by
  decide

/-- C5 (amended): an absent or empty tone is treated as `friendly` and an
absent or empty scenario as `general`; any non-empty tone or scenario string,
recognized or not, is used verbatim by the pipeline, so unrecognized
non-empty values are not normalized to the defaults. -/
theorem toneScenario_defaults (req : Req) :
    ((req.tone = none ∨ req.tone = some "") → toneValueOf req = "friendly") ∧
    (∀ s, req.tone = some s → s ≠ "" → toneValueOf req = s) ∧
    ((req.scenario = none ∨ req.scenario = some "") →
      scenarioValueOf req = "general") ∧
    (∀ s, req.scenario = some s → s ≠ "" → scenarioValueOf req = s) := by
  refine ⟨?_, ?_, ?_, ?_⟩
  · rintro (h | h) <;> simp [toneValueOf, jsOr, h]
  · intro s hs hne
    simp [toneValueOf, jsOr, hs, hne]
  · rintro (h | h) <;> simp [scenarioValueOf, jsOr, h]
  · intro s hs hne
    simp [scenarioValueOf, jsOr, hs, hne]

/-- Witness for C5 (amended): with tone absent the value is `friendly`; with
the non-empty tone `business` the value is `business` itself. -/
theorem toneScenario_defaults_witness :
    toneValueOf
        { licenseKey := none, tone := none, clipboardText := none
          clientId := none, scenario := none } = "friendly" ∧
    toneValueOf
        { licenseKey := none, tone := some "business", clipboardText := none
          clientId := none, scenario := none } = "business" :=
  ⟨(toneScenario_defaults _).1 (Or.inl rfl),
   (toneScenario_defaults _).2.1 "business" rfl (by decide)⟩

/-- C6: the output extraction of the handler equals the reference definition
(the in-order concatenation, across all output segments and all their content
parts, of exactly the text of the parts of type `output_text` with a string
text field, then trimmed); it is total on results with zero segments, missing
content, or non-text part kinds, and an admitted request whose extracted text
trims to empty yields the admitted-empty-output envelope, not a crash. -/
theorem extraction_matches_reference :
    (∀ ai : Option AIResult, jsTrim (extractOutputText ai) = specExtract ai) ∧
    (∀ (req : Req) (c : String → Nat) (today : String) (ai : Option AIResult),
      (req.licenseKey = some proLicense ∨ c (usageKey req today) < 5) →
      jsTrim (extractOutputText ai) = "" →
      (generateHandler req c today (Except.ok ai)).response =
        { ok := false, reply := ""
          todayUsage := c (usageKey req today) + 1
          todayLimit := if req.licenseKey = some proLicense then 999 else 5
          isPro := decide (req.licenseKey = some proLicense)
          message := genFailedMsg }) := by
  constructor
  · intro ai
    rw [extractOutputText_eq]
    simp only [specExtract]
  · intro req c today ai h he
    rw [handler_ok_empty req c today ai h he]

/-- Witness for C6: a synthetic provider result with three segments and mixed
part kinds extracts exactly the two `output_text` string parts in order; and
a zero-content result on an admitted request yields the empty-output
envelope. -/
theorem extraction_matches_reference_witness :
    specExtract sampleAI = "안녕하세요" ∧
    jsTrim (extractOutputText sampleAI) = specExtract sampleAI ∧
    (generateHandler
        { licenseKey := none, tone := none, clipboardText := none
          clientId := none, scenario := none }
        (fun _ => 0) "2025-06-01" (Except.ok zeroSegmentsAI)).response =
      { ok := false, reply := "", todayUsage := 1, todayLimit := 5
        isPro := false, message := genFailedMsg } :=
  ⟨by decide,
   extraction_matches_reference.1 _,
   extraction_matches_reference.2 _ _ _ _ (Or.inr (by decide)) (by decide)⟩

/-- C7: a provider fault on an admitted request is caught and mapped to
exactly the fallback envelope — ok=false, empty reply, todayUsage=0,
todayLimit=5, isPro=false, fixed generic message — with HTTP status 200,
regardless of the caller's true usage, limit or pro status; no exception
reaches the caller. -/
theorem internalFailure_fallback (req : Req) (c : String → Nat)
    (today : String)
    (h : req.licenseKey = some proLicense ∨ c (usageKey req today) < 5) :
    (generateHandler req c today (Except.error ())).response =
      { ok := false, reply := "", todayUsage := 0, todayLimit := 5
        isPro := false, message := serverErrorMsg } ∧
    (generateHandler req c today (Except.error ())).status = 200 := by
  rw [handler_error req c today h]
  exact ⟨rfl, rfl⟩

/-- Witness for C7: a concrete pro caller with true usage 3 still receives
the zeroed fallback envelope when the provider faults. -/
theorem internalFailure_fallback_witness :
    (generateHandler
        { licenseKey := some proLicense, tone := none, clipboardText := none
          clientId := some "cs_pro", scenario := none }
        (fun _ => 3) "2025-06-01" (Except.error ())).response =
      { ok := false, reply := "", todayUsage := 0, todayLimit := 5
        isPro := false, message := serverErrorMsg } :=
  (internalFailure_fallback
    { licenseKey := some proLicense, tone := none, clipboardText := none
      clientId := some "cs_pro", scenario := none }
    (fun _ => 3) "2025-06-01" (Or.inl rfl)).1

/-- C8: in the composed system instruction, inside the claim-scenario block
(between the claim header and the review header), the apology/empathy line
precedes the concrete-remedy line, which precedes the closing line; each of
the three lines occurs exactly once in the whole instruction, so they appear
in exactly that relative order. -/
theorem claimScenario_ordered_structure :
    (∃ a b c d e f : String,
      systemPrompt = a ++ claimHeader ++ b ++ claimApologyLine ++ c
        ++ claimRemedyLine ++ d ++ claimClosingLine ++ e
        ++ reviewHeader ++ f) ∧
    occurrences systemPrompt claimApologyLine = 1 ∧
    occurrences systemPrompt claimRemedyLine = 1 ∧
    occurrences systemPrompt claimClosingLine = 1 := by
  refine ⟨⟨secA, secB, secC, secD, secE, secF, rfl⟩, ?_, ?_, ?_⟩ <;> decide

/-- C9: the handler passes the success status 200 to `res.status` for every
request, counter state and provider outcome — all four terminal outcomes
included; failure is communicated only through the `ok` field. -/
theorem response_always_status_200 (req : Req) (c : String → Nat)
    (today : String) (prov : ProviderOutcome) :
    (generateHandler req c today prov).status = 200 := by
  by_cases hadm : req.licenseKey = some proLicense ∨
    c (usageKey req today) < 5
  · cases prov with
    | error e =>
      cases e
      rw [handler_error req c today hadm]
    | ok ai =>
      by_cases he : jsTrim (extractOutputText ai) = ""
      · rw [handler_ok_empty req c today ai hadm he]
      · rw [handler_ok_success req c today ai hadm he]
  · push_neg at hadm
    obtain ⟨hp, hu⟩ := hadm
    rw [handler_rejected req c today prov hp (by omega)]

/-- C10: the prompt pair submitted to the provider depends only on the tone
value, the scenario value and the trimmed customer text — two requests
agreeing on those three values submit identical prompts, whatever their
licenseKey, clientId, counter state, day, or provider outcome. -/
theorem prompts_independent_of_identity (r₁ r₂ : Req)
    (c₁ c₂ : String → Nat) (t₁ t₂ : String) (p₁ p₂ : ProviderOutcome)
    (pr₁ pr₂ : String × String)
    (htone : toneValueOf r₁ = toneValueOf r₂)
    (hscn : scenarioValueOf r₁ = scenarioValueOf r₂)
    (htext : textOf r₁ = textOf r₂)
    (h₁ : (generateHandler r₁ c₁ t₁ p₁).providerCall = some pr₁)
    (h₂ : (generateHandler r₂ c₂ t₂ p₂).providerCall = some pr₂) :
    pr₁ = pr₂ := by
  rw [handler_providerCall_shape r₁ c₁ t₁ p₁ pr₁ h₁,
    handler_providerCall_shape r₂ c₂ t₂ p₂ pr₂ h₂, htone, hscn, htext]

/-- Witness for C10: two concrete requests differing in licenseKey and
clientId but agreeing on tone, scenario and trimmed text submit the same
prompt pair. -/
theorem prompts_independent_of_identity_witness :
    (systemPrompt,
      userPrompt
        (toneValueOf
          { licenseKey := none, tone := none
            clipboardText := some "  상품이 파손되어 도착했어요  "
            clientId := some "cid-1", scenario := some "claim" })
        (scenarioValueOf
          { licenseKey := none, tone := none
            clipboardText := some "  상품이 파손되어 도착했어요  "
            clientId := some "cid-1", scenario := some "claim" })
        (textOf
          { licenseKey := none, tone := none
            clipboardText := some "  상품이 파손되어 도착했어요  "
            clientId := some "cid-1", scenario := some "claim" })) =
    (systemPrompt,
      userPrompt
        (toneValueOf
          { licenseKey := some proLicense, tone := none
            clipboardText := some "상품이 파손되어 도착했어요"
            clientId := some "cid-2", scenario := some "claim" })
        (scenarioValueOf
          { licenseKey := some proLicense, tone := none
            clipboardText := some "상품이 파손되어 도착했어요"
            clientId := some "cid-2", scenario := some "claim" })
        (textOf
          { licenseKey := some proLicense, tone := none
            clipboardText := some "상품이 파손되어 도착했어요"
            clientId := some "cid-2", scenario := some "claim" })) :=
  prompts_independent_of_identity
    { licenseKey := none, tone := none
      clipboardText := some "  상품이 파손되어 도착했어요  "
      clientId := some "cid-1", scenario := some "claim" }
    { licenseKey := some proLicense, tone := none
      clipboardText := some "상품이 파손되어 도착했어요"
      clientId := some "cid-2", scenario := some "claim" }
    (fun _ => 0) (fun _ => 0) "2025-06-01" "2025-06-01"
    (Except.ok none) (Except.ok none) _ _
    (by decide) (by decide) (by decide)
    ((handler_admitted _ _ _ _ (Or.inr (by decide))).2)
    ((handler_admitted _ _ _ _ (Or.inl rfl)).2)
